import Mathlib

/-!
Shallow embedding of the realtime audio bridge in `src/index.js`
(Twilio media-stream leg ↔ OpenAI realtime leg), restricted to the
per-call session logic inside the `/media-stream` websocket handler:
the mutable session variables, the OpenAI-message handler, the
Twilio-message handler, and the connection-lifecycle handlers.
-/

namespace TwilioDetect

/-- The per-call session variables declared at the top of the
`/media-stream` handler: `streamSid`, `latestMediaTimestamp`,
`lastAssistantItem`, `markQueue`, `responseStartTimestampTwilio`.
Nullable JS variables become `Option`; the mark queue is a list of
mark names. -/
structure Session where
  streamSid : Option String
  latestMediaTimestamp : Int
  lastAssistantItem : Option String
  markQueue : List String
  responseStartTimestampTwilio : Option Int
deriving Repr, DecidableEq

/-- The initial values of the session variables
(`streamSid = null`, `latestMediaTimestamp = 0`,
`lastAssistantItem = null`, `markQueue = []`,
`responseStartTimestampTwilio = null`). -/
def initSession : Session :=
  { streamSid := none
    latestMediaTimestamp := 0
    lastAssistantItem := none
    markQueue := []
    responseStartTimestampTwilio := none }

/-- JS truthiness of a nullable string: `null` and `""` are falsy. -/
def jsTruthyStr : Option String → Bool
  | none => false
  | some s => decide (s ≠ "")

/-- JS falsiness of a nullable number, as tested by `!x`:
`null` and `0` are falsy. -/
def jsFalsyOptInt : Option Int → Bool
  | none => true
  | some n => decide (n = 0)

/-- An outbound frame on the telephony (Twilio) leg, as built by
`connection.send(JSON.stringify(...))`: `media`, `mark` and `clear`
frames, each embedding the current `streamSid` value. -/
inductive TwilioFrame where
  | media (streamSid : Option String) (payload : String)
  | mark (streamSid : Option String) (name : String)
  | clear (streamSid : Option String)
deriving Repr, DecidableEq

/-- The `streamSid` field a telephony frame carries. -/
def TwilioFrame.frameSid : TwilioFrame → Option String
  | TwilioFrame.media sid _ => sid
  | TwilioFrame.mark sid _ => sid
  | TwilioFrame.clear sid => sid

/-- An outbound frame on the speech-AI (OpenAI) leg emitted from the
session logic: `input_audio_buffer.append` and
`conversation.item.truncate` (the one-shot `session.update` sent on
open is outside the per-message handlers). -/
inductive OpenAiFrame where
  | inputAudioAppend (audio : String)
  | truncateItem (item_id : String) (content_index : Int) (audio_end_ms : Int)
deriving Repr, DecidableEq

/-- A parsed inbound OpenAI realtime message, with the fields the
handler reads: `type`, `delta`, `item_id`. Absent fields are `none`. -/
structure OpenAiMsg where
  type : String
  delta : Option String
  item_id : Option String
deriving Repr, DecidableEq

/-- The OpenAI `input_audio_buffer.speech_started` message (it carries
no `delta` or `item_id`). -/
def speechStartedMsg : OpenAiMsg :=
  { type := "input_audio_buffer.speech_started", delta := none, item_id := none }

/-- A `response.audio.delta` message with the given payload and item id. -/
def deltaMsg (d : Option String) (i : Option String) : OpenAiMsg :=
  { type := "response.audio.delta", delta := d, item_id := i }

/-- The `openAiWs.on("message", ...)` handler of `src/index.js`
(lines 151-218), restricted to its two state-relevant branches.
Returns the updated session, the frames sent on the telephony leg
(in send order) and the frames sent on the OpenAI leg.

Branch 1 (`response.type === "response.audio.delta" && response.delta`):
sends a `media` frame with the delta payload; if
`!responseStartTimestampTwilio` (JS-falsy: null or 0) captures
`responseStartTimestampTwilio = latestMediaTimestamp`; if
`response.item_id` is truthy records it as `lastAssistantItem`; if
`streamSid` is truthy sends a `mark` frame and pushes `"responsePart"`
onto `markQueue`.

Branch 2 (`input_audio_buffer.speech_started`): if
`markQueue.length` is truthy and `responseStartTimestampTwilio != null`,
computes `elapsed = latestMediaTimestamp - responseStartTimestampTwilio`,
sends a truncate frame if `lastAssistantItem` is truthy, sends a
`clear` frame, and resets `markQueue`, `lastAssistantItem`,
`responseStartTimestampTwilio`. -/
def handleOpenAiMsg (s : Session) (m : OpenAiMsg) :
    Session × List TwilioFrame × List OpenAiFrame :=
  if m.type == "response.audio.delta" && jsTruthyStr m.delta then
    let payload := m.delta.getD ""
    let s1 :=
      if jsFalsyOptInt s.responseStartTimestampTwilio then
        { s with responseStartTimestampTwilio := some s.latestMediaTimestamp }
      else s
    let s2 :=
      if jsTruthyStr m.item_id then { s1 with lastAssistantItem := m.item_id } else s1
    if jsTruthyStr s.streamSid then
      ({ s2 with markQueue := s2.markQueue ++ ["responsePart"] },
       [TwilioFrame.media s.streamSid payload,
        TwilioFrame.mark s.streamSid "responsePart"],
       [])
    else
      (s2, [TwilioFrame.media s.streamSid payload], [])
  else if m.type == "input_audio_buffer.speech_started" then
    if s.markQueue.length != 0 && s.responseStartTimestampTwilio.isSome then
      let elapsed := s.latestMediaTimestamp - s.responseStartTimestampTwilio.getD 0
      let oaOut :=
        if jsTruthyStr s.lastAssistantItem then
          [OpenAiFrame.truncateItem (s.lastAssistantItem.getD "") 0 elapsed]
        else []
      ({ s with
          markQueue := []
          lastAssistantItem := none
          responseStartTimestampTwilio := none },
       [TwilioFrame.clear s.streamSid], oaOut)
    else (s, [], [])
  else (s, [], [])

/-- A parsed inbound Twilio media-stream message, dispatched on its
`event` field: `start` (with `start.streamSid`), `media` (with
`media.timestamp` and `media.payload`), `mark`, and any other event. -/
inductive TwilioMsg where
  | start (streamSid : String)
  | media (timestamp : Int) (payload : String)
  | mark
  | other (event : String)
deriving Repr, DecidableEq

/-- The `connection.on("message", ...)` handler of `src/index.js`
(lines 220-250). `openAiReady` is whether
`openAiWs.readyState === WebSocket.OPEN`. Returns the updated session
and the frames sent on the OpenAI leg.

`start`: sets `streamSid`, resets `responseStartTimestampTwilio` to
null and `latestMediaTimestamp` to 0. `media`: assigns
`latestMediaTimestamp = msg.media.timestamp` and, when the OpenAI
socket is open, forwards the payload as `input_audio_buffer.append`.
`mark`: `if (markQueue.length) markQueue.shift()`. Other events are
logged only. -/
def handleTwilioMsg (s : Session) (openAiReady : Bool) (m : TwilioMsg) :
    Session × List OpenAiFrame :=
  match m with
  | TwilioMsg.start sid =>
      ({ s with
          streamSid := some sid
          responseStartTimestampTwilio := none
          latestMediaTimestamp := 0 }, [])
  | TwilioMsg.media ts payload =>
      ({ s with latestMediaTimestamp := ts },
       if openAiReady then [OpenAiFrame.inputAudioAppend payload] else [])
  | TwilioMsg.mark =>
      (if s.markQueue.length != 0 then { s with markQueue := s.markQueue.tail } else s,
       [])
  | TwilioMsg.other _ => (s, [])

/-- An inbound event of the session: a message on one of the two legs. -/
inductive Event where
  | fromTwilio (m : TwilioMsg)
  | fromOpenAi (m : OpenAiMsg)
deriving Repr, DecidableEq

/-- Whether an event is a telephony `start` event. -/
def Event.isStart : Event → Bool
  | Event.fromTwilio (TwilioMsg.start _) => true
  | _ => false

/-- One step of the session: dispatch an inbound event to the handler
of its leg. Returns the updated session, the telephony-leg output and
the OpenAI-leg output. -/
def stepEvent (openAiReady : Bool) (s : Session) (e : Event) :
    Session × List TwilioFrame × List OpenAiFrame :=
  match e with
  | Event.fromTwilio m =>
      let r := handleTwilioMsg s openAiReady m
      (r.1, [], r.2)
  | Event.fromOpenAi m => handleOpenAiMsg s m

/-- Run a list of inbound events, accumulating the outputs of each leg. -/
def runEvents (openAiReady : Bool) (s : Session) :
    List Event → Session × List TwilioFrame × List OpenAiFrame
  | [] => (s, [], [])
  | e :: es =>
      let st := stepEvent openAiReady s e
      let rest := runEvents openAiReady st.1 es
      (rest.1, st.2.1 ++ rest.2.1, st.2.2 ++ rest.2.2)

/-- The session state after a list of inbound events. -/
def runState (openAiReady : Bool) (s : Session) (es : List Event) : Session :=
  (runEvents openAiReady s es).1

/-- The successive values of `latestMediaTimestamp` observed after each
of a sequence of inbound telephony `media` events. -/
def mediaTimestampTrace (openAiReady : Bool) (s : Session) : List Int → List Int
  | [] => []
  | t :: ts =>
      let s1 := (handleTwilioMsg s openAiReady (TwilioMsg.media t "")).1
      s1.latestMediaTimestamp :: mediaTimestampTrace openAiReady s1 ts

/-- Iterate the `input_audio_buffer.speech_started` handler n times
(state only). -/
def speechStartedIter : Nat → Session → Session
  | 0, s => s
  | n + 1, s => speechStartedIter n (handleOpenAiMsg s speechStartedMsg).1

/-- Iterate the telephony `mark` handler n times (state only). -/
def markIter (openAiReady : Bool) : Nat → Session → Session
  | 0, s => s
  | n + 1, s => markIter openAiReady n (handleTwilioMsg s openAiReady TwilioMsg.mark).1

/-- A mid-call session snapshot: stream `"SS1"` started, AI speech in
flight (`lastAssistantItem = "it1"`, `responseStartTimestampTwilio = 500`)
with one unacknowledged mark, caller clock at 1200 ms. This is the state
reached in Scenario C of the spec. -/
def midCallSession : Session :=
  { streamSid := some "SS1"
    latestMediaTimestamp := 1200
    lastAssistantItem := some "it1"
    markQueue := ["responsePart"]
    responseStartTimestampTwilio := some 500 }

/-- Discipline under which the C6 in-flight invariant is preserved:
a speech-delta that carries audio must carry a truthy `item_id`, and a
telephony `start` must not arrive while an assistant item is recorded.
The code itself enforces neither. -/
def itemIdDiscipline (s : Session) : Event → Prop
  | Event.fromOpenAi m =>
      m.type = "response.audio.delta" → jsTruthyStr m.delta = true →
        jsTruthyStr m.item_id = true
  | Event.fromTwilio (TwilioMsg.start _) => s.lastAssistantItem = none
  | Event.fromTwilio _ => True

/-- A trace all of whose events satisfy `itemIdDiscipline` at the state
where they are processed. -/
def disciplinedTrace (openAiReady : Bool) : Session → List Event → Prop
  | _, [] => True
  | s, e :: es =>
      itemIdDiscipline s e ∧
      disciplinedTrace openAiReady (stepEvent openAiReady s e).1 es

/-- The four-event trace of Scenarios A-C: start, media at 500 ms,
first AI delta, barge-in. -/
def scenarioTrace : List Event :=
  [Event.fromTwilio (TwilioMsg.start "SS1"),
   Event.fromTwilio (TwilioMsg.media 500 "p"),
   Event.fromOpenAi (deltaMsg (some "d") (some "it1")),
   Event.fromOpenAi speechStartedMsg]

/-- Open/closed status of the two legs of one session. -/
structure Legs where
  twilioOpen : Bool
  openAiOpen : Bool
deriving Repr, DecidableEq

/-- A connection-lifecycle event: the telephony connection closing, the
OpenAI websocket closing, or an OpenAI websocket error. -/
inductive LifecycleEvent where
  | twilioClose
  | openAiClose
  | openAiError
deriving Repr, DecidableEq

/-- The lifecycle handlers of `src/index.js` (lines 252-263).
`connection.on("close")` closes the OpenAI socket if its readyState is
OPEN. `openAiWs.on("close")` and `openAiWs.on("error")` only log; they
do not touch the telephony connection. -/
def stepLifecycle (l : Legs) : LifecycleEvent → Legs
  | LifecycleEvent.twilioClose =>
      { twilioOpen := false
        openAiOpen := if l.openAiOpen then false else l.openAiOpen }
  | LifecycleEvent.openAiClose => { l with openAiOpen := false }
  | LifecycleEvent.openAiError => l

/-- The session just before the AI's first delta in Scenario B: stream
`"SS1"` started, caller clock at 500 ms, no AI speech in flight. -/
def scenarioBSession : Session :=
  { streamSid := some "SS1"
    latestMediaTimestamp := 500
    lastAssistantItem := none
    markQueue := []
    responseStartTimestampTwilio := none }

/-- A trace in which the AI's first delta arrives while
`latestMediaTimestamp = 0`, a media frame advances the clock to 100,
and a second delta of the same speech turn arrives. -/
def recaptureTrace : List Event :=
  [Event.fromTwilio (TwilioMsg.start "SS1"),
   Event.fromOpenAi (deltaMsg (some "d1") (some "it1")),
   Event.fromTwilio (TwilioMsg.media 100 "p"),
   Event.fromOpenAi (deltaMsg (some "d2") (some "it1"))]

/-- Helper: one telephony `mark` event always leaves `markQueue` equal
to the tail of its previous value (the tail of `[]` is `[]`). -/
theorem mark_markQueue_tail (s : Session) (openAiReady : Bool) :
    (handleTwilioMsg s openAiReady TwilioMsg.mark).1.markQueue = s.markQueue.tail := by
  unfold handleTwilioMsg
  cases h : s.markQueue with
  | nil => simp [h]
  | cons a l => simp [h]

/-- C1: When a speech-started event arrives while `pendingMarks` is
non-empty and `responseStartTimestamp` is non-null, the handler computes
`elapsed = latestMediaTimestamp - responseStartTimestamp`, emits a
`conversation.item.truncate` frame to the speech-AI leg with
`lastAssistantItemId` and `audio_end_ms = elapsed` exactly when
`lastAssistantItemId` is set, emits a `clear` frame to the telephony
leg, and resets `pendingMarks` to `[]` and `lastAssistantItemId` and
`responseStartTimestamp` to null. (Item ids recorded by the code are
always truthy, hence the non-empty-string hypothesis.) -/
theorem speech_started_barge_in (s : Session) (r : Int)
    (h1 : s.markQueue ≠ []) (h2 : s.responseStartTimestampTwilio = some r)
    (h3 : ∀ i, s.lastAssistantItem = some i → i ≠ "") :
    handleOpenAiMsg s speechStartedMsg =
      ({ s with
          markQueue := []
          lastAssistantItem := none
          responseStartTimestampTwilio := none },
       [TwilioFrame.clear s.streamSid],
       match s.lastAssistantItem with
       | some i => [OpenAiFrame.truncateItem i 0 (s.latestMediaTimestamp - r)]
       | none => []) := by
  have hq : s.markQueue.length ≠ 0 := fun hh => h1 (List.length_eq_zero.mp hh)
  have hg : (s.markQueue.length != 0 && s.responseStartTimestampTwilio.isSome) = true := by
    simp [h2, bne_iff_ne, hq]
  unfold handleOpenAiMsg
  simp only [speechStartedMsg]
  rw [if_neg (by decide)]
  rw [if_pos (by decide :
    (("input_audio_buffer.speech_started" : String) == "input_audio_buffer.speech_started")
      = true)]
  rw [if_pos hg]
  cases hl : s.lastAssistantItem with
  | none => simp [h2, hl, jsTruthyStr]
  | some i =>
      have hne : i ≠ "" := h3 i hl
      simp [h2, hl, jsTruthyStr, hne]

/-- Witness for C1 at the Scenario C state (`responseStartTimestamp=500`,
`latestMediaTimestamp=1200`): the truncate frame carries
`audio_end_ms = 700`. -/
theorem speech_started_barge_in_witness :
    handleOpenAiMsg midCallSession speechStartedMsg =
      ({ midCallSession with
          markQueue := []
          lastAssistantItem := none
          responseStartTimestampTwilio := none },
       [TwilioFrame.clear (some "SS1")],
       [OpenAiFrame.truncateItem "it1" 0 700]) := by
  have h := speech_started_barge_in midCallSession 500 (by decide) rfl
    (by intro i hi; cases hi; decide)
  simpa [midCallSession] using h

/-- C2: When `pendingMarks` is empty or `responseStartTimestamp` is
null, a speech-started event changes no session state and emits no
frame on either leg; hence any number of repeated speech-started events
from such a state is a no-op. -/
theorem speech_started_no_op (s : Session)
    (h : s.markQueue = [] ∨ s.responseStartTimestampTwilio = none) :
    handleOpenAiMsg s speechStartedMsg = (s, [], []) ∧
    ∀ n, speechStartedIter n s = s := by
  have hstep : handleOpenAiMsg s speechStartedMsg = (s, [], []) := by
    have hg : ¬((s.markQueue.length != 0 && s.responseStartTimestampTwilio.isSome) = true) := by
      rcases h with h | h <;> simp [h]
    unfold handleOpenAiMsg
    simp only [speechStartedMsg]
    rw [if_neg (by decide)]
    rw [if_pos (by decide :
      (("input_audio_buffer.speech_started" : String) == "input_audio_buffer.speech_started")
        = true)]
    rw [if_neg hg]
  refine ⟨hstep, ?_⟩
  intro n
  induction n with
  | zero => rfl
  | succ k ih =>
      show speechStartedIter k (handleOpenAiMsg s speechStartedMsg).1 = s
      rw [hstep]
      exact ih

/-- Witness for C2: on the initial session (empty mark queue), a
speech-started event is a no-op, and so are three repeated ones. -/
theorem speech_started_no_op_witness :
    handleOpenAiMsg initSession speechStartedMsg = (initSession, [], []) ∧
    speechStartedIter 3 initSession = initSession := by
  have h := speech_started_no_op initSession (Or.inl rfl)
  exact ⟨h.1, h.2 3⟩

/-- C9: A telephony `mark` acknowledgment removes exactly one entry
from `pendingMarks` when the queue is non-empty; on an empty queue it
is a no-op that leaves the whole session unchanged; and any number `n`
of mark events leaves the queue at `drop n` of its previous value, so
its length never underflows. -/
theorem mark_never_underflows (s : Session) (openAiReady : Bool) :
    (s.markQueue ≠ [] →
       (handleTwilioMsg s openAiReady TwilioMsg.mark).1.markQueue = s.markQueue.tail ∧
       (handleTwilioMsg s openAiReady TwilioMsg.mark).1.markQueue.length + 1 =
         s.markQueue.length) ∧
    (s.markQueue = [] → handleTwilioMsg s openAiReady TwilioMsg.mark = (s, [])) ∧
    (∀ n, (markIter openAiReady n s).markQueue = s.markQueue.drop n) := by
  refine ⟨?_, ?_, ?_⟩
  · intro h
    refine ⟨mark_markQueue_tail s openAiReady, ?_⟩
    rw [mark_markQueue_tail s openAiReady]
    cases hq : s.markQueue with
    | nil => exact absurd hq h
    | cons a l => simp
  · intro h
    unfold handleTwilioMsg
    simp [h]
  · intro n
    induction n generalizing s with
    | zero => rfl
    | succ k ih =>
        show (markIter openAiReady k (handleTwilioMsg s openAiReady TwilioMsg.mark).1).markQueue
          = s.markQueue.drop (k + 1)
        rw [ih, mark_markQueue_tail s openAiReady, ← List.drop_one, List.drop_drop,
          Nat.add_comm]

/-- Witness for C9 at the mid-call session (queue of length one): one
mark empties the queue, a second is a no-op, and two marks on the
initial (empty-queue) session leave it empty. -/
theorem mark_never_underflows_witness :
    (handleTwilioMsg midCallSession true TwilioMsg.mark).1.markQueue = [] ∧
    (markIter true 2 midCallSession).markQueue = [] ∧
    (markIter true 2 initSession).markQueue = [] := by
  refine ⟨?_, ?_, ?_⟩
  · have h := (mark_never_underflows midCallSession true).1 (by decide)
    simpa [midCallSession] using h.1
  · have h := (mark_never_underflows midCallSession true).2.2 2
    simpa [midCallSession] using h
  · have h := (mark_never_underflows initSession true).2.2 2
    simpa [initSession] using h

/-- C10: A telephony `start` event sets `streamId`, resets
`latestMediaTimestamp` to 0 and `responseStartTimestamp` to null, and
leaves `pendingMarks` and `lastAssistantItemId` unchanged; in
particular a second `start` arriving mid-call (here at the Scenario C
state) keeps the stale queued mark and stale assistant item id next to
freshly cleared timing state. -/
theorem start_event_effect (s : Session) (openAiReady : Bool) (sid : String) :
    handleTwilioMsg s openAiReady (TwilioMsg.start sid) =
      ({ streamSid := some sid
         latestMediaTimestamp := 0
         lastAssistantItem := s.lastAssistantItem
         markQueue := s.markQueue
         responseStartTimestampTwilio := none }, []) ∧
    (handleTwilioMsg midCallSession true (TwilioMsg.start "SS2")).1 =
      { streamSid := some "SS2"
        latestMediaTimestamp := 0
        lastAssistantItem := some "it1"
        markQueue := ["responsePart"]
        responseStartTimestampTwilio := none } := by
  exact ⟨rfl, rfl⟩

/-- C3 counterexample: on the initial session (telephony `start` not
yet received, so `streamSid` is still null) a `response.audio.delta`
event emits the media frame but no mark frame and pushes nothing onto
`pendingMarks`, refuting the claim that exactly one mark frame is sent
and one entry pushed regardless of the rest of the session state. -/
theorem delta_without_stream_no_mark :
    (handleOpenAiMsg initSession (deltaMsg (some "d") (some "it1"))).2.1 =
      [TwilioFrame.media none "d"] ∧
    (handleOpenAiMsg initSession (deltaMsg (some "d") (some "it1"))).1.markQueue =
      initSession.markQueue := by
  exact ⟨rfl, rfl⟩

/-- C3 (amended): every inbound `response.audio.delta` event with a
non-empty payload emits exactly one telephony media frame carrying that
payload; when `streamId` is set (a truthy string) the handler also
emits exactly one mark frame, after the media frame, and pushes exactly
one entry onto `pendingMarks`; when `streamId` is unset, no mark frame
is emitted and `pendingMarks` is unchanged. Nothing is sent on the
speech-AI leg. -/
theorem delta_media_mark_frames (s : Session) (m : OpenAiMsg) (d : String)
    (hm : m.type = "response.audio.delta") (hd : m.delta = some d) (hne : d ≠ "") :
    (jsTruthyStr s.streamSid = true →
       (handleOpenAiMsg s m).2.1 =
         [TwilioFrame.media s.streamSid d, TwilioFrame.mark s.streamSid "responsePart"] ∧
       (handleOpenAiMsg s m).1.markQueue = s.markQueue ++ ["responsePart"]) ∧
    (jsTruthyStr s.streamSid = false →
       (handleOpenAiMsg s m).2.1 = [TwilioFrame.media s.streamSid d] ∧
       (handleOpenAiMsg s m).1.markQueue = s.markQueue) ∧
    (handleOpenAiMsg s m).2.2 = [] := by
  have hcond : (m.type == "response.audio.delta" && jsTruthyStr m.delta) = true := by
    simp [hm, hd, jsTruthyStr, hne]
  unfold handleOpenAiMsg
  rw [if_pos hcond]
  simp only [hd, Option.getD_some]
  refine ⟨?_, ?_, ?_⟩
  · intro hsid
    rw [if_pos hsid]
    refine ⟨rfl, ?_⟩
    split <;> split <;> rfl
  · intro hsid
    rw [if_neg (by simp [hsid])]
    refine ⟨rfl, ?_⟩
    split <;> split <;> rfl
  · split <;> rfl

/-- Witness for C3's amended theorem, in both the truthy-`streamId`
case (Scenario B state) and the null-`streamId` case (initial state). -/
theorem delta_media_mark_frames_witness :
    (handleOpenAiMsg scenarioBSession (deltaMsg (some "d") (some "it1"))).2.1 =
      [TwilioFrame.media (some "SS1") "d",
       TwilioFrame.mark (some "SS1") "responsePart"] ∧
    (handleOpenAiMsg initSession (deltaMsg (some "d2") none)).2.1 =
      [TwilioFrame.media none "d2"] := by
  constructor
  · have h := (delta_media_mark_frames scenarioBSession
      (deltaMsg (some "d") (some "it1")) "d" rfl rfl (by decide)).1 (by decide)
    simpa [scenarioBSession] using h.1
  · have h := (delta_media_mark_frames initSession
      (deltaMsg (some "d2") none) "d2" rfl rfl (by decide)).2.1 rfl
    exact h.1

/-- C4 counterexample: when the AI's first delta arrives at
`latestMediaTimestamp = 0`, the captured `responseStartTimestamp` is 0,
which the JS guard `!responseStartTimestampTwilio` treats as absent, so
a later delta of the same speech turn re-captures it (here to 100) —
refuting the claim that subsequent deltas never change it. -/
theorem delta_recaptures_zero_timestamp :
    (runState true initSession (recaptureTrace.take 2)).responseStartTimestampTwilio =
      some 0 ∧
    (runState true initSession recaptureTrace).responseStartTimestampTwilio =
      some 100 ∧
    (runState true initSession (recaptureTrace.take 2)).lastAssistantItem =
      (runState true initSession recaptureTrace).lastAssistantItem := by
  exact ⟨rfl, rfl, rfl⟩

/-- C4 (amended): a `response.audio.delta` event captures
`responseStartTimestamp = latestMediaTimestamp` whenever the stored
value is null; subsequent deltas of the same speech turn do not change
it provided the captured value is non-zero, but a captured value of 0
is treated as absent by the JS falsiness test and is re-captured on the
next delta. In Scenario B (delta with `item_id="it1"` at
`latestMediaTimestamp=500`) the session ends with
`responseStartTimestamp=500`, `lastAssistantItemId="it1"` and
`pendingMarks=["responsePart"]`. -/
theorem delta_capture_timestamp (s : Session) (m : OpenAiMsg) (d : String)
    (hm : m.type = "response.audio.delta") (hd : m.delta = some d) (hne : d ≠ "") :
    (s.responseStartTimestampTwilio = none →
       (handleOpenAiMsg s m).1.responseStartTimestampTwilio =
         some s.latestMediaTimestamp) ∧
    (∀ r, s.responseStartTimestampTwilio = some r → r ≠ 0 →
       (handleOpenAiMsg s m).1.responseStartTimestampTwilio = some r) ∧
    (s.responseStartTimestampTwilio = some 0 →
       (handleOpenAiMsg s m).1.responseStartTimestampTwilio =
         some s.latestMediaTimestamp) ∧
    handleOpenAiMsg scenarioBSession (deltaMsg (some "d") (some "it1")) =
      ({ streamSid := some "SS1"
         latestMediaTimestamp := 500
         lastAssistantItem := some "it1"
         markQueue := ["responsePart"]
         responseStartTimestampTwilio := some 500 },
       [TwilioFrame.media (some "SS1") "d",
        TwilioFrame.mark (some "SS1") "responsePart"],
       []) := by
  have hcond : (m.type == "response.audio.delta" && jsTruthyStr m.delta) = true := by
    simp [hm, hd, jsTruthyStr, hne]
  refine ⟨?_, ?_, ?_, rfl⟩
  · intro hr
    unfold handleOpenAiMsg
    rw [if_pos hcond]
    split <;> split <;> split <;> simp_all [jsFalsyOptInt]
  · intro r hr hr0
    unfold handleOpenAiMsg
    rw [if_pos hcond]
    split <;> split <;> split <;> simp_all [jsFalsyOptInt]
  · intro hr
    unfold handleOpenAiMsg
    rw [if_pos hcond]
    split <;> split <;> split <;> simp_all [jsFalsyOptInt]

/-- Witness for C4's amended theorem: the Scenario B conjunct, the
null-capture conjunct at the Scenario B state, and the stability
conjunct at the mid-call state (stored value 500 ≠ 0). -/
theorem delta_capture_timestamp_witness :
    (handleOpenAiMsg scenarioBSession
       (deltaMsg (some "d") (some "it1"))).1.responseStartTimestampTwilio = some 500 ∧
    (handleOpenAiMsg midCallSession
       (deltaMsg (some "d3") (some "it2"))).1.responseStartTimestampTwilio = some 500 := by
  constructor
  · have h := (delta_capture_timestamp scenarioBSession
      (deltaMsg (some "d") (some "it1")) "d" rfl rfl (by decide)).1 rfl
    simpa [scenarioBSession] using h
  · exact (delta_capture_timestamp midCallSession
      (deltaMsg (some "d3") (some "it2")) "d3" rfl rfl (by decide)).2.1 500 rfl
      (by decide)

/-- Helper: running a sequence of telephony media events makes the
successive values of `latestMediaTimestamp` exactly the input
timestamps. -/
theorem mediaTimestampTrace_eq (openAiReady : Bool) (ts : List Int) :
    ∀ s : Session, mediaTimestampTrace openAiReady s ts = ts := by
  induction ts with
  | nil => intro s; rfl
  | cons t rest ih =>
      intro s
      show _ :: mediaTimestampTrace openAiReady _ rest = t :: rest
      rw [ih]
      rfl

/-- C5 counterexample: the media handler performs a plain assignment
`latestMediaTimestamp = msg.media.timestamp` with no monotonicity
enforcement, so the inbound sequence of timestamps 100, 50 makes
`latestMediaTimestamp` decrease from 100 to 50 — refuting the claim
that it is monotonically non-decreasing for every sequence. -/
theorem media_timestamp_not_monotone :
    mediaTimestampTrace true initSession [100, 50] = [100, 50] ∧
    ¬ List.Chain' (fun a b : Int => a ≤ b)
        (mediaTimestampTrace true initSession [100, 50]) := by
  refine ⟨rfl, ?_⟩
  rw [mediaTimestampTrace_eq]
  norm_num [List.chain'_cons]

/-- C5 (amended): after each inbound telephony media event,
`latestMediaTimestamp` equals the timestamp of that frame (so the
successive values are exactly the inbound timestamps), and it is
monotonically non-decreasing whenever the inbound timestamps are
non-decreasing; the code does not itself enforce monotonicity. -/
theorem media_timestamp_tracks_input (s : Session) (openAiReady : Bool) :
    (∀ t p, (handleTwilioMsg s openAiReady (TwilioMsg.media t p)).1.latestMediaTimestamp
       = t) ∧
    (∀ ts, mediaTimestampTrace openAiReady s ts = ts) ∧
    (∀ ts, List.Chain' (fun a b : Int => a ≤ b) ts →
       List.Chain' (fun a b : Int => a ≤ b) (mediaTimestampTrace openAiReady s ts)) := by
  refine ⟨fun t p => rfl, fun ts => mediaTimestampTrace_eq openAiReady ts s, ?_⟩
  intro ts h
  rw [mediaTimestampTrace_eq openAiReady ts s]
  exact h

/-- Witness for C5's amended theorem on the non-decreasing inbound
sequence 10, 10, 30. -/
theorem media_timestamp_tracks_input_witness :
    (handleTwilioMsg initSession true (TwilioMsg.media 10 "p")).1.latestMediaTimestamp
      = 10 ∧
    mediaTimestampTrace true initSession [10, 10, 30] = [10, 10, 30] ∧
    List.Chain' (fun a b : Int => a ≤ b)
      (mediaTimestampTrace true initSession [10, 10, 30]) := by
  refine ⟨(media_timestamp_tracks_input initSession true).1 10 "p",
    (media_timestamp_tracks_input initSession true).2.1 [10, 10, 30],
    (media_timestamp_tracks_input initSession true).2.2 [10, 10, 30]
      (by norm_num [List.chain'_cons])⟩

/-- Helper: a truthy nullable string is non-null. -/
theorem isSome_of_jsTruthyStr (o : Option String) (h : jsTruthyStr o = true) :
    o.isSome = true := by
  cases o <;> simp_all [jsTruthyStr]

/-- Helper: field-level description of the `response.audio.delta`
branch of the OpenAI message handler. -/
theorem handleOpenAiMsg_delta_fields (s : Session) (m : OpenAiMsg)
    (h1 : (m.type == "response.audio.delta" && jsTruthyStr m.delta) = true) :
    (handleOpenAiMsg s m).1.responseStartTimestampTwilio =
      (if jsFalsyOptInt s.responseStartTimestampTwilio then some s.latestMediaTimestamp
       else s.responseStartTimestampTwilio) ∧
    (handleOpenAiMsg s m).1.lastAssistantItem =
      (if jsTruthyStr m.item_id then m.item_id else s.lastAssistantItem) ∧
    (handleOpenAiMsg s m).1.streamSid = s.streamSid := by
  unfold handleOpenAiMsg
  rw [if_pos h1]
  split <;> split <;> split <;> simp_all

/-- Helper: one step preserves the in-flight invariant
`responseStartTimestampTwilio.isSome = lastAssistantItem.isSome` for
events satisfying `itemIdDiscipline`. -/
theorem in_flight_inv_step (s : Session) (openAiReady : Bool) (e : Event)
    (hinv : s.responseStartTimestampTwilio.isSome = s.lastAssistantItem.isSome)
    (hgood : itemIdDiscipline s e) :
    (stepEvent openAiReady s e).1.responseStartTimestampTwilio.isSome =
      (stepEvent openAiReady s e).1.lastAssistantItem.isSome := by
  cases e with
  | fromTwilio m =>
      cases m with
      | start sid =>
          have h : s.lastAssistantItem = none := hgood
          simp [stepEvent, handleTwilioMsg, h]
      | media t p => simpa [stepEvent, handleTwilioMsg] using hinv
      | mark =>
          show (handleTwilioMsg s openAiReady TwilioMsg.mark).1.responseStartTimestampTwilio.isSome
            = (handleTwilioMsg s openAiReady TwilioMsg.mark).1.lastAssistantItem.isSome
          simp only [handleTwilioMsg]
          split <;> simpa using hinv
      | other ev => simpa [stepEvent, handleTwilioMsg] using hinv
  | fromOpenAi m =>
      show (handleOpenAiMsg s m).1.responseStartTimestampTwilio.isSome
        = (handleOpenAiMsg s m).1.lastAssistantItem.isSome
      by_cases h1 : (m.type == "response.audio.delta" && jsTruthyStr m.delta) = true
      · obtain ⟨hf1, hf2, _⟩ := handleOpenAiMsg_delta_fields s m h1
        rw [hf1, hf2]
        rw [Bool.and_eq_true] at h1
        have hid : jsTruthyStr m.item_id = true :=
          hgood (by simpa using h1.1) h1.2
        have hr : (if jsTruthyStr m.item_id then m.item_id
            else s.lastAssistantItem).isSome = true := by
          rw [if_pos hid]
          exact isSome_of_jsTruthyStr _ hid
        have hl : (if jsFalsyOptInt s.responseStartTimestampTwilio
            then some s.latestMediaTimestamp
            else s.responseStartTimestampTwilio).isSome = true := by
          cases hn : s.responseStartTimestampTwilio with
          | none => simp [jsFalsyOptInt]
          | some n => split <;> simp
        rw [hr, hl]
      · unfold handleOpenAiMsg
        rw [if_neg h1]
        by_cases h2 : (m.type == "input_audio_buffer.speech_started") = true
        · rw [if_pos h2]
          split
          · simp
          · exact hinv
        · rw [if_neg h2]
          exact hinv

/-- Helper: the invariant is preserved along any disciplined trace. -/
theorem in_flight_inv_run (openAiReady : Bool) (es : List Event) :
    ∀ s : Session,
      s.responseStartTimestampTwilio.isSome = s.lastAssistantItem.isSome →
      disciplinedTrace openAiReady s es →
      (runState openAiReady s es).responseStartTimestampTwilio.isSome =
        (runState openAiReady s es).lastAssistantItem.isSome := by
  induction es with
  | nil => intro s h _; exact h
  | cons e rest ih =>
      intro s h hg
      exact ih _ (in_flight_inv_step s openAiReady e h hg.1) hg.2

/-- C6 counterexample: the iff-invariant fails in reachable states. A
delta without an `item_id` sets `responseStartTimestamp` (to 0, which
is non-null) while `lastAssistantItemId` stays null; and a `start`
arriving while an item is recorded nulls `responseStartTimestamp` but
keeps `lastAssistantItemId`. -/
theorem in_flight_iff_counterexample :
    ((runState true initSession
        [Event.fromOpenAi (deltaMsg (some "d") none)]).responseStartTimestampTwilio.isSome
          = true ∧
     (runState true initSession
        [Event.fromOpenAi (deltaMsg (some "d") none)]).lastAssistantItem.isSome
          = false) ∧
    ((runState true initSession
        [Event.fromOpenAi (deltaMsg (some "d") (some "it1")),
         Event.fromTwilio (TwilioMsg.start "SS1")]).lastAssistantItem.isSome = true ∧
     (runState true initSession
        [Event.fromOpenAi (deltaMsg (some "d") (some "it1")),
         Event.fromTwilio (TwilioMsg.start "SS1")]).responseStartTimestampTwilio.isSome
          = false) := by
  exact ⟨⟨rfl, rfl⟩, ⟨rfl, rfl⟩⟩

/-- C6 (amended): in every state reachable by an interleaving in which
each audio-carrying delta carries a truthy `item_id` and no `start`
event arrives while an assistant item is in flight,
`responseStartTimestamp` is non-null iff `lastAssistantItemId` is
non-null. (Without that discipline the code violates the iff.) -/
theorem in_flight_iff_disciplined (openAiReady : Bool) (es : List Event)
    (h : disciplinedTrace openAiReady initSession es) :
    (runState openAiReady initSession es).responseStartTimestampTwilio.isSome =
      (runState openAiReady initSession es).lastAssistantItem.isSome :=
  in_flight_inv_run openAiReady es initSession rfl h

/-- Witness for C6's amended theorem on the Scenario A-C trace. -/
theorem in_flight_iff_disciplined_witness :
    (runState true initSession scenarioTrace).responseStartTimestampTwilio.isSome =
      (runState true initSession scenarioTrace).lastAssistantItem.isSome := by
  refine in_flight_iff_disciplined true scenarioTrace ?_
  refine ⟨rfl, trivial, ?_, ?_, trivial⟩
  · intro _ _
    decide
  · intro h _
    exact absurd h (by decide)

/-- Helper: the telephony output of the OpenAI message handler is one
of four shapes, each of whose frames embeds the current `streamSid`. -/
theorem handleOpenAiMsg_twilioOut (s : Session) (m : OpenAiMsg) :
    (handleOpenAiMsg s m).2.1 = [] ∨
    (handleOpenAiMsg s m).2.1 = [TwilioFrame.media s.streamSid (m.delta.getD "")] ∨
    (handleOpenAiMsg s m).2.1 =
      [TwilioFrame.media s.streamSid (m.delta.getD ""),
       TwilioFrame.mark s.streamSid "responsePart"] ∨
    (handleOpenAiMsg s m).2.1 = [TwilioFrame.clear s.streamSid] := by
  unfold handleOpenAiMsg
  repeat' split
  all_goals simp

/-- Helper: every telephony frame emitted while processing one event
carries the `streamSid` held by the session when the event arrived. -/
theorem step_frames_carry_streamSid (s : Session) (openAiReady : Bool) (e : Event) :
    ∀ f ∈ (stepEvent openAiReady s e).2.1, f.frameSid = s.streamSid := by
  intro f hf
  cases e with
  | fromTwilio m => simp [stepEvent] at hf
  | fromOpenAi m =>
      show f.frameSid = s.streamSid
      have hf' : f ∈ (handleOpenAiMsg s m).2.1 := hf
      rcases handleOpenAiMsg_twilioOut s m with h | h | h | h
      · rw [h] at hf'
        simp at hf'
      · rw [h] at hf'
        simp at hf'
        rw [hf']
        rfl
      · rw [h] at hf'
        simp at hf'
        rcases hf' with rfl | rfl <;> rfl
      · rw [h] at hf'
        simp at hf'
        rw [hf']
        rfl

/-- Helper: no event other than a telephony `start` changes `streamSid`. -/
theorem step_preserves_streamSid (s : Session) (openAiReady : Bool) (e : Event)
    (h : e.isStart = false) :
    (stepEvent openAiReady s e).1.streamSid = s.streamSid := by
  cases e with
  | fromTwilio m =>
      cases m with
      | start sid => simp [Event.isStart] at h
      | media t p => rfl
      | mark =>
          show (handleTwilioMsg s openAiReady TwilioMsg.mark).1.streamSid = s.streamSid
          simp only [handleTwilioMsg]
          split <;> rfl
      | other ev => rfl
  | fromOpenAi m =>
      show (handleOpenAiMsg s m).1.streamSid = s.streamSid
      unfold handleOpenAiMsg
      repeat' split
      all_goals rfl

/-- Helper: along any trace with no further `start` event, every
telephony frame carries the `streamSid` in force at the head. -/
theorem run_frames_carry_streamSid (openAiReady : Bool) (es : List Event) :
    ∀ s : Session, s.streamSid = some "SS1" →
      (∀ x ∈ es, x.isStart = false) →
      ∀ f ∈ (runEvents openAiReady s es).2.1, f.frameSid = some "SS1" := by
  induction es with
  | nil =>
      intro s _ _ f hf
      simp [runEvents] at hf
  | cons e rest ih =>
      intro s hs hns f hf
      have hf' : f ∈ (stepEvent openAiReady s e).2.1 ++
          (runEvents openAiReady (stepEvent openAiReady s e).1 rest).2.1 := hf
      rcases List.mem_append.mp hf' with hmem | hmem
      · rw [← hs]
        exact step_frames_carry_streamSid s openAiReady e f hmem
      · have hs' : (stepEvent openAiReady s e).1.streamSid = some "SS1" := by
          rw [step_preserves_streamSid s openAiReady e
            (hns e (List.mem_cons_self e rest))]
          exact hs
        exact ih _ hs' (fun x hx => hns x (List.mem_cons_of_mem e hx)) f hmem

/-- C7: a telephony `start` with streamSid `"SS1"` sets the session's
`streamId` to `"SS1"`; every telephony frame emitted while processing
any single event carries the session's current `streamId`; and along
any continuation containing no further `start` event, every emitted
telephony frame carries `"SS1"`. -/
theorem outbound_frames_carry_streamSid (openAiReady : Bool) :
    (∀ (s : Session) (sid : String),
       (handleTwilioMsg s openAiReady (TwilioMsg.start sid)).1.streamSid = some sid) ∧
    (∀ (s : Session) (e : Event), ∀ f ∈ (stepEvent openAiReady s e).2.1,
       f.frameSid = s.streamSid) ∧
    (∀ (s : Session) (es : List Event), s.streamSid = some "SS1" →
       (∀ x ∈ es, x.isStart = false) →
       ∀ f ∈ (runEvents openAiReady s es).2.1, f.frameSid = some "SS1") :=
  ⟨fun _ _ => rfl,
   fun s e => step_frames_carry_streamSid s openAiReady e,
   fun s es hs hns => run_frames_carry_streamSid openAiReady es s hs hns⟩

/-- Witness for C7: the media frame emitted for a delta after the
`"SS1"` start carries streamSid `"SS1"`. -/
theorem outbound_frames_carry_streamSid_witness :
    TwilioFrame.frameSid (TwilioFrame.media (some "SS1") "d") = some "SS1" :=
  (outbound_frames_carry_streamSid true).2.2 scenarioBSession
    [Event.fromOpenAi (deltaMsg (some "d") (some "it1"))] rfl
    (by decide)
    (TwilioFrame.media (some "SS1") "d") (by decide)

/-- C8 counterexample: from the state with both legs open, the OpenAI
socket closing (or erroring) leaves the telephony leg open — the
handlers at lines 257-263 only log — so a half-open session is
reachable, refuting "closing either leg closes the other". -/
theorem openai_close_leaves_half_open :
    stepLifecycle { twilioOpen := true, openAiOpen := true } LifecycleEvent.openAiClose =
      { twilioOpen := true, openAiOpen := false } ∧
    stepLifecycle { twilioOpen := true, openAiOpen := true } LifecycleEvent.openAiError =
      { twilioOpen := true, openAiOpen := true } := by
  exact ⟨rfl, rfl⟩

/-- C8 (amended): when the telephony leg closes, the speech-AI leg is
closed as well; but when the speech-AI leg closes or errors, the
telephony leg's state is untouched (the handler only logs), so only
the telephony-to-OpenAI direction of the claim holds. Telephony media
is not forwarded to the speech-AI leg while that leg is not open. -/
theorem twilio_close_closes_openai (l : Legs) :
    (stepLifecycle l LifecycleEvent.twilioClose).twilioOpen = false ∧
    (stepLifecycle l LifecycleEvent.twilioClose).openAiOpen = false ∧
    (stepLifecycle l LifecycleEvent.openAiClose).twilioOpen = l.twilioOpen ∧
    (∀ (s : Session) (t : Int) (p : String),
       (handleTwilioMsg s false (TwilioMsg.media t p)).2 = []) := by
  refine ⟨rfl, ?_, rfl, fun s t p => rfl⟩
  show (if l.openAiOpen then false else l.openAiOpen) = false
  cases h : l.openAiOpen <;> simp [h]

end TwilioDetect
